import Mathlib

/-!
Verification of `download_rpm_glb_images.py` (NGMatrix/rpm_avatar_downloader).

The Python program is shallowly embedded: the filesystem is a map from path
strings to optional file contents (byte lists), the network is an oracle
mapping a URL to a response, and every function of the source is translated
into a Lean function over that state.  `requests.Session` carries no state the
program observes, so it is absorbed into the network oracle; thread-pool
dispatch is modelled by running the avatar tasks in submission order, and the
order-independence of the aggregation is proved separately.
-/

namespace RpmAvatarDownloader

/-! ## Constants of the source -/

def RPM_3D_BASE : String := "https://api.readyplayer.me/v1/avatars/"

def RPM_2D_BASE : String := "https://models.readyplayer.me"

def POSES : List String := ["power-stance", "relaxed", "standing", "thumbs-up"]

def EXPRESSION : String := "happy"

/-! ## Identifier parser

`ID_OR_GLB_RE = re.compile(r"^([a-fA-F0-9]+)(?:\.glb)?$")`: a match is a
non-empty hex string, optionally followed by the literal suffix `.glb`; the
captured group is the hex part.  Since `.` is not a hex character, a string
matches the regex iff either it is all-hex, or it ends in `.glb` and the part
before that suffix is non-empty and all-hex. -/

def isHexCh (c : Char) : Bool :=
  (Char.ofNat 97 ≤ c && c ≤ Char.ofNat 102) ||
  (Char.ofNat 65 ≤ c && c ≤ Char.ofNat 70) ||
  (Char.ofNat 48 ≤ c && c ≤ Char.ofNat 57)

def glbSuffix : List Char := (".glb" : String).toList

def ID_OR_GLB_RE_match (s : String) : Option String :=
  let cs := s.toList
  let t : List Char := if glbSuffix.isSuffixOf cs then cs.take (cs.length - 4) else cs
  if !t.isEmpty && t.all isHexCh then some (String.mk t) else none

/-- the Python `s.strip(c)` for a single character `c`: remove every leading
and trailing occurrence of `c`. -/
def stripChar (s : String) (c : Char) : String :=
  String.mk (((s.toList.dropWhile (fun x => x = c)).reverse.dropWhile (fun x => x = c)).reverse)

/-- the Python `s.strip()` with no argument: remove surrounding whitespace. -/
def stripWs (s : String) : String :=
  String.mk (((s.toList.dropWhile Char.isWhitespace).reverse.dropWhile Char.isWhitespace).reverse)

/-- the `line.strip().strip(DQUOTE).strip(QUOTE)` chain of `parse_id`. -/
def stripped (line : String) : String :=
  stripChar (stripChar (stripWs line) (Char.ofNat 34)) (Char.ofNat 39)

def parse_id (line : String) : Option String :=
  let s := stripped line
  if s.isEmpty then none
  else ID_OR_GLB_RE_match s

/-- the input-reading loop of `main` (lines 118-124): collect truthy parses,
count non-blank unparsable lines as bad. -/
def parse_input (lines : List String) : List String × Nat :=
  lines.foldl
    (fun acc line =>
      match parse_id line with
      | some i =>
          if !i.isEmpty then (acc.1 ++ [i], acc.2)
          else if !(stripWs line).isEmpty then (acc.1, acc.2 + 1) else acc
      | none =>
          if !(stripWs line).isEmpty then (acc.1, acc.2 + 1) else acc)
    ([], 0)

/-! ## Filesystem and network model

A filesystem maps a path to the optional contents of the file there (a byte
list).  A network oracle maps a URL to the observed behaviour of the request:
`resp code body` is a completed response with all of `body` streamable;
`exc kind wrote` is an exception of class `kind` raised anywhere inside the
`try` block of `download_file`, with `wrote` the bytes written to the
temporary file before the exception (`none` when the exception occurs before
the temporary file is opened).  `os.makedirs` may itself raise; the oracle
`mkdirExc` gives the exception class, or `none` when it succeeds. -/

def FS : Type := String → Option (List Nat)

def FS.set (fs : FS) (p : String) (c : List Nat) : FS :=
  fun q => if q = p then some c else fs q

def FS.remove (fs : FS) (p : String) : FS :=
  fun q => if q = p then none else fs q

/-- the guard `os.path.exists(out_path) and os.path.getsize(out_path) > 0`. -/
def file_nonempty (fs : FS) (p : String) : Bool :=
  match fs p with
  | some c => c.length > 0
  | none => false

inductive NetResp where
  | resp (code : Nat) (body : List Nat)
  | exc (kind : String) (wrote : Option (List Nat))

structure Env where
  net : String → NetResp
  mkdirExc : String → Option String

/-- result of one `download_file` call: the filesystem afterwards, the
returned `(ok, reason)` pair, and the number of network requests issued. -/
structure FetchOut where
  fs : FS
  ok : Bool
  reason : String
  calls : Nat

/-- `download_file` (lines 31-49).  The early-exit guard performs no request;
otherwise one `session.get` is issued.  A non-200 response returns at once; a
200 response streams the whole body to `out_path + ".part"` and then
`os.replace`s it onto `out_path`; any exception removes the temporary file if
it exists and reports `error_<kind>`. -/
def download_file (net : String → NetResp) (fs : FS) (url out_path : String)
    (_timeout : Nat) : FetchOut :=
  if file_nonempty fs out_path then
    { fs := fs, ok := true, reason := "exists", calls := 0 }
  else
    let tmp := out_path ++ ".part"
    match net url with
    | NetResp.resp code body =>
        if code ≠ 200 then
          { fs := fs, ok := false, reason := "http_" ++ toString code, calls := 1 }
        else
          let fs1 := FS.set fs tmp body
          let fs2 := FS.set (FS.remove fs1 tmp) out_path body
          { fs := fs2, ok := true, reason := "downloaded", calls := 1 }
    | NetResp.exc kind wrote =>
        let fs1 := match wrote with
          | none => fs
          | some w => FS.set fs tmp w
        let fs2 := if (fs1 tmp).isSome then FS.remove fs1 tmp else fs1
        { fs := fs2, ok := false, reason := "error_" ++ kind, calls := 1 }

/-! ## URL building and paths -/

def pathJoin (a b : String) : String := a ++ "/" ++ b

def hexUpper (n : Nat) : Char :=
  if n < 10 then Char.ofNat (48 + n) else Char.ofNat (55 + n)

/-- percent-encoding of one character as `urllib.parse.quote_plus` does for
the ASCII range used by this program (alphanumerics and `_.-~` kept, space to
`+`, anything else to `%XX`). -/
def quote_plus_char (c : Char) : List Char :=
  if c.isAlphanum || c = Char.ofNat 95 || c = Char.ofNat 46 ||
      c = Char.ofNat 45 || c = Char.ofNat 126 then [c]
  else if c = Char.ofNat 32 then [Char.ofNat 43]
  else [Char.ofNat 37, hexUpper (c.toNat / 16 % 16), hexUpper (c.toNat % 16)]

def quote_plus (s : String) : String :=
  String.mk (s.toList.map quote_plus_char).flatten

/-- `urllib.parse.urlencode`: `k=v` pairs joined by `&`, values quoted. -/
def urlencode (params : List (String × String)) : String :=
  String.intercalate "&"
    (params.map (fun kv => quote_plus kv.1 ++ "=" ++ quote_plus kv.2))

def render_url (avatar_id : String) (params : List (String × String)) : String :=
  RPM_2D_BASE ++ "/" ++ avatar_id ++ ".png?" ++ urlencode params

/-! ## Avatar task (`process_avatar`, lines 56-98) -/

structure AvatarResult where
  avatar : String
  glb : Option String
  png_ok : Nat
  png_fail : Nat
deriving DecidableEq

/-- result of one avatar task: the filesystem afterwards, the result record,
the number of network requests issued, and the list of image destination
paths for which an image fetch was attempted, in order. -/
structure TaskOut where
  fs : FS
  result : AvatarResult
  netCalls : Nat
  attempts : List String

def pose_png_path (avatar_dir avatar_id pose : String) : String :=
  pathJoin avatar_dir
    (avatar_id ++ "__pose-" ++ pose ++ "__expr-" ++ EXPRESSION ++ ".png")

/-- one iteration of the `for pose in POSES` loop: copy the base parameters,
add the pose, fetch the image, and count the outcome. -/
def pose_step (env : Env) (avatar_id avatar_dir : String)
    (base_params : List (String × String)) (timeout : Nat)
    (acc : TaskOut) (pose : String) : TaskOut :=
  let params := base_params ++ [("pose", pose)]
  let png_url := render_url avatar_id params
  let png_path := pose_png_path avatar_dir avatar_id pose
  let d := download_file env.net acc.fs png_url png_path timeout
  if d.ok then
    { fs := d.fs, result := { acc.result with png_ok := acc.result.png_ok + 1 },
      netCalls := acc.netCalls + d.calls, attempts := acc.attempts ++ [png_path] }
  else
    { fs := d.fs, result := { acc.result with png_fail := acc.result.png_fail + 1 },
      netCalls := acc.netCalls + d.calls, attempts := acc.attempts ++ [png_path] }

/-- `process_avatar`: make the per-avatar directory (an uncaught exception
there is an `Except.error`), fetch the model, short-circuit on model failure,
otherwise fetch one image per pose. -/
def process_avatar (env : Env) (fs : FS) (avatar_id out_root : String)
    (base_params : List (String × String)) (timeout : Nat) :
    Except String TaskOut :=
  let result0 : AvatarResult :=
    { avatar := avatar_id, glb := none, png_ok := 0, png_fail := 0 }
  let avatar_dir := pathJoin out_root avatar_id
  match env.mkdirExc avatar_dir with
  | some k => Except.error k
  | none =>
    let glb_path := pathJoin avatar_dir (avatar_id ++ ".glb")
    let glb_url := RPM_3D_BASE ++ avatar_id ++ ".glb"
    let d := download_file env.net fs glb_url glb_path timeout
    if d.ok then
      Except.ok (POSES.foldl (pose_step env avatar_id avatar_dir base_params timeout)
        { fs := d.fs, result := { result0 with glb := some d.reason },
          netCalls := d.calls, attempts := [] })
    else
      Except.ok
        { fs := d.fs, result := { result0 with glb := some ("FAILED (" ++ d.reason ++ ")") },
          netCalls := d.calls, attempts := [] }

/-! ## Aggregation and `main` (lines 101-164) -/

structure Summary where
  ok_glb : Nat
  fail_glb : Nat
  png_ok : Nat
  png_fail : Nat
deriving DecidableEq

def str_startsWith (s p : String) : Bool := p.toList.isPrefixOf s.toList

/-- the test `r["glb"].startswith("FAILED")` of the result loop. -/
def glbFailed (r : AvatarResult) : Bool := str_startsWith (r.glb.getD "") "FAILED"

/-- one iteration of the `as_completed` result loop (lines 148-158): bump the
model counters by the FAILED marker, always add the image counters. -/
def tally (s : Summary) (r : AvatarResult) : Summary :=
  let s1 := if glbFailed r
    then { s with fail_glb := s.fail_glb + 1 }
    else { s with ok_glb := s.ok_glb + 1 }
  { s1 with png_ok := s1.png_ok + r.png_ok, png_fail := s1.png_fail + r.png_fail }

def aggregate (rs : List AvatarResult) : Summary :=
  rs.foldl tally ⟨0, 0, 0, 0⟩

/-- the final `return 0 if fail_glb == 0 else 2` of `main`. -/
def exit_of (s : Summary) : Nat := if s.fail_glb = 0 then 0 else 2

/-- `base_params` built in `main` (lines 132-137), with the size clamp
`max(1, min(1024, args.size))`. -/
def build_base_params (size : Int) (camera background : String) :
    List (String × String) :=
  [("size", toString (max 1 (min 1024 size))),
   ("camera", camera),
   ("background", background),
   ("expression", EXPRESSION)]

/-- the worker pool, modelled by running one avatar task per identifier in
submission order and threading the filesystem through; returns the final
filesystem, the result list and the total number of network requests.
(Completion order only permutes the result list; order-independence of the
aggregation is proved separately.) -/
def run_tasks (env : Env) (fs : FS) (ids : List String) (out_root : String)
    (bp : List (String × String)) (timeout : Nat) :
    Except String (FS × List AvatarResult × Nat) :=
  match ids with
  | [] => Except.ok (fs, [], 0)
  | i :: rest =>
    match process_avatar env fs i out_root bp timeout with
    | Except.error e => Except.error e
    | Except.ok t =>
      match run_tasks env t.fs rest out_root bp timeout with
      | Except.error e => Except.error e
      | Except.ok (fs2, rs, n) => Except.ok (fs2, t.result :: rs, t.netCalls + n)

structure MainOut where
  fs : FS
  code : Nat
  results : List AvatarResult
  summary : Summary
  netCalls : Nat
  bad : Nat

/-- `main` after argument parsing: make the output directory, parse the input
lines, exit 1 on an empty identifier list, otherwise run all avatar tasks,
aggregate, and exit 0 or 2 by the model failure counter. -/
def main_run (env : Env) (fs : FS) (input_lines : List String)
    (output_dir : String) (size : Int) (camera background : String)
    (timeout : Nat) : Except String MainOut :=
  match env.mkdirExc output_dir with
  | some k => Except.error k
  | none =>
    let ids := (parse_input input_lines).1
    let bad := (parse_input input_lines).2
    if ids.isEmpty then
      Except.ok
        { fs := fs, code := 1, results := [], summary := ⟨0, 0, 0, 0⟩,
          netCalls := 0, bad := bad }
    else
      match run_tasks env fs ids output_dir
          (build_base_params size camera background) timeout with
      | Except.error e => Except.error e
      | Except.ok (fs2, rs, n) =>
        Except.ok
          { fs := fs2, code := exit_of (aggregate rs), results := rs,
            summary := aggregate rs, netCalls := n, bad := bad }

/-! ## Safety property of the fetcher (claim C2) -/

/-- on any failure of `download_file` the destination is untouched and no
temporary file survives, with the failure reason naming the response; and the
destination is only ever changed to the complete body of a 200 response. -/
def FetchFailureSafe (net : String → NetResp) (fs : FS) (url out_path : String)
    (timeout : Nat) : Prop :=
  ((download_file net fs url out_path timeout).ok = false →
      (download_file net fs url out_path timeout).fs out_path = fs out_path ∧
      (download_file net fs url out_path timeout).fs (out_path ++ ".part") = none ∧
      ((∃ code body, net url = NetResp.resp code body ∧ code ≠ 200 ∧
          (download_file net fs url out_path timeout).reason = "http_" ++ toString code) ∨
        (∃ kind wrote, net url = NetResp.exc kind wrote ∧
          (download_file net fs url out_path timeout).reason = "error_" ++ kind)))
  ∧ ((download_file net fs url out_path timeout).fs out_path = fs out_path ∨
      ((download_file net fs url out_path timeout).ok = true ∧
        (download_file net fs url out_path timeout).reason = "downloaded" ∧
        ∃ body, net url = NetResp.resp 200 body ∧
          (download_file net fs url out_path timeout).fs out_path = some body))

/-! ## Concrete fixtures used by the witnesses -/

def fsEmpty : FS := fun _ => none

def envAllOk : Env :=
  { net := fun _ => NetResp.resp 200 [7], mkdirExc := fun _ => none }

def envHttp404 : Env :=
  { net := fun _ => NetResp.resp 404 [], mkdirExc := fun _ => none }

def envMkdirFail : Env :=
  { net := fun _ => NetResp.resp 200 [7], mkdirExc := fun _ => some "PermissionError" }

/-- a filesystem holding the five output files of avatar `ab` under root `o`,
each non-empty. -/
def fsPre : FS := fun p =>
  if p ∈ pathJoin (pathJoin "o" "ab") ("ab" ++ ".glb") ::
      POSES.map (pose_png_path (pathJoin "o" "ab") "ab")
  then some [7] else none

def resOkFx : AvatarResult :=
  { avatar := "a1", glb := some "downloaded", png_ok := 3, png_fail := 1 }

def resFailFx : AvatarResult :=
  { avatar := "b2", glb := some "FAILED (http_404)", png_ok := 0, png_fail := 0 }

def mainOutEmptyRun : MainOut :=
  { fs := fsEmpty, code := 1, results := [], summary := ⟨0, 0, 0, 0⟩,
    netCalls := 0, bad := 0 }

end RpmAvatarDownloader

namespace RpmAvatarDownloader

/-! ## Parser theorems -/

theorem ID_OR_GLB_RE_match_some {s i : String}
    (h : ID_OR_GLB_RE_match s = some i) :
    i.toList ≠ [] ∧ i.toList.all isHexCh = true ∧
      (s = i ∨ s = i ++ ".glb") := by
  simp only [ID_OR_GLB_RE_match] at h
  by_cases hsuf : glbSuffix.isSuffixOf s.toList = true
  · rw [if_pos hsuf] at h
    by_cases hcond : (!(s.toList.take (s.toList.length - 4)).isEmpty &&
        (s.toList.take (s.toList.length - 4)).all isHexCh) = true
    · rw [if_pos hcond] at h
      injection h with h1
      obtain ⟨hne, hall⟩ := (Bool.and_eq_true _ _).mp hcond
      obtain ⟨p, hp⟩ := List.isSuffixOf_iff_suffix.mp hsuf
      have hlen : s.toList.length - 4 = p.length := by
        rw [← hp, List.length_append]
        simp [glbSuffix]
      have htp : s.toList.take (s.toList.length - 4) = p := by
        rw [hlen, ← hp, List.take_left]
      have hti : i.toList = p := by
        rw [← h1, htp]
        rfl
      refine ⟨?_, ?_, Or.inr ?_⟩
      · rw [hti]
        intro hc
        rw [htp, hc] at hne
        simp at hne
      · rw [hti, ← htp]; exact hall
      · apply String.ext
        show s.toList = (i ++ ".glb").toList
        rw [← hp, ← h1, htp]
        rfl
    · rw [if_neg hcond] at h
      exact absurd h (by simp)
  · rw [if_neg hsuf] at h
    by_cases hcond : (!s.toList.isEmpty && s.toList.all isHexCh) = true
    · rw [if_pos hcond] at h
      injection h with h1
      obtain ⟨hne, hall⟩ := (Bool.and_eq_true _ _).mp hcond
      have hti : i.toList = s.toList := by rw [← h1]; rfl
      refine ⟨?_, ?_, Or.inl ?_⟩
      · rw [hti]
        intro hc
        rw [hc] at hne
        simp at hne
      · rw [hti]; exact hall
      · exact String.ext hti.symm
    · rw [if_neg hcond] at h
      exact absurd h (by simp)

/-- C7: the parser maps `"abc123.glb"` to identifier `abc123` (whitespace,
quotes and the `.glb` suffix stripped), maps a blank line to nothing without
counting it bad, and maps a non-hex line such as `"not-hex!"` to nothing while
counting it bad and adding no identifier. -/
theorem parse_id_examples :
    parse_id "abc123.glb" = some "abc123" ∧
    parse_id " \"abc123.glb\" " = some "abc123" ∧
    parse_id "  " = none ∧
    parse_id "not-hex!" = none ∧
    parse_input ["abc123.glb"] = (["abc123"], 0) ∧
    parse_input ["  "] = ([], 0) ∧
    parse_input ["not-hex!"] = ([], 1) ∧
    parse_input ["abc123.glb", "  ", "not-hex!"] = (["abc123"], 1) := by
  refine ⟨?_, ?_, ?_, ?_, ?_, ?_, ?_, ?_⟩ <;> decide

theorem all_hex_dotfree {cs : List Char} (h : cs.all isHexCh = true) :
    cs.all (fun c => !(c = Char.ofNat 46)) = true := by
  rw [List.all_eq_true] at h ⊢
  intro c hc
  have hhex := h c hc
  by_cases hcd : c = Char.ofNat 46
  · rw [hcd] at hhex
    exact absurd hhex (by decide)
  · simp [hcd]

theorem dotfree_split (d : Char) :
    ∀ (as cs bs ds : List Char),
      as.all (fun c => !(c = d)) = true →
      cs.all (fun c => !(c = d)) = true →
      as ++ d :: bs = cs ++ d :: ds →
      as = cs ∧ bs = ds := by
  intro as
  induction as with
  | nil =>
    intro cs bs ds _ hcs h
    cases cs with
    | nil =>
      rw [List.nil_append, List.nil_append] at h
      injection h with _ h2
      exact ⟨rfl, h2⟩
    | cons c cs2 =>
      rw [List.nil_append, List.cons_append] at h
      injection h with h1 _
      rw [List.all_cons] at hcs
      obtain ⟨hc, _⟩ := (Bool.and_eq_true _ _).mp hcs
      rw [← h1] at hc
      simp at hc
  | cons a as2 ih =>
    intro cs bs ds has hcs h
    cases cs with
    | nil =>
      rw [List.cons_append, List.nil_append] at h
      injection h with h1 _
      rw [List.all_cons] at has
      obtain ⟨ha, _⟩ := (Bool.and_eq_true _ _).mp has
      rw [h1] at ha
      simp at ha
    | cons c cs2 =>
      rw [List.cons_append, List.cons_append] at h
      injection h with h1 h2
      rw [List.all_cons] at has hcs
      obtain ⟨_, has2⟩ := (Bool.and_eq_true _ _).mp has
      obtain ⟨_, hcs2⟩ := (Bool.and_eq_true _ _).mp hcs
      obtain ⟨hac, hbd⟩ := ih cs2 bs ds has2 hcs2 h2
      subst h1
      rw [hac]
      exact ⟨rfl, hbd⟩

/-- C9: the stripping of a trailing extension is limited to the literal
lowercase suffix `.glb`: a stripped line made of a non-empty hex string
followed by a dot-initial extension other than `".glb"` parses to nothing
(and any non-blank unparsed line is counted as bad); any successful parse
is, after whitespace/quote stripping, either the identifier itself or the
identifier followed by exactly `".glb"`.  `"abc123.png"` and `"ABC123.GLB"`
are the concrete instances. -/
theorem parse_id_strips_only_glb :
    (∀ line h e : String, stripped line = h ++ e → h.toList ≠ [] →
      h.toList.all isHexCh = true → e.toList.head? = some (Char.ofNat 46) →
      e ≠ ".glb" → parse_id line = none) ∧
    (∀ line, parse_id line = none → (stripWs line).isEmpty = false →
      parse_input [line] = ([], 1)) ∧
    parse_id "abc123.png" = none ∧
    parse_id "ABC123.GLB" = none ∧
    parse_input ["abc123.png", "ABC123.GLB"] = ([], 2) ∧
    ∀ line i, parse_id line = some i →
      i.toList ≠ [] ∧ i.toList.all isHexCh = true ∧
        (stripped line = i ∨ stripped line = i ++ ".glb") := by
  refine ⟨?_, ?_, by decide, by decide, by decide, ?_⟩
  · intro line h e hstrip hh hhex hdot hne
    obtain ⟨c, rest, hel⟩ : ∃ c rest, e.toList = c :: rest := by
      cases hev : e.toList with
      | nil => rw [hev] at hdot; exact Option.noConfusion hdot
      | cons c rest => exact ⟨c, rest, rfl⟩
    have hcdot : c = Char.ofNat 46 := by
      rw [hel] at hdot
      exact Option.some.inj hdot
    subst hcdot
    have hnonempty : (stripped line).isEmpty = false := by
      rw [hstrip, Bool.eq_false_iff]
      intro hc
      have hce : h ++ e = "" := (String.isEmpty_iff _).mp hc
      have h3 : h.toList ++ e.toList = [] := by
        rw [show h.toList ++ e.toList = (h ++ e).toList from rfl, hce]
        rfl
      rw [hel] at h3
      exact absurd (List.append_eq_nil.mp h3).2 (by simp)
    show (if (stripped line).isEmpty = true then none
      else ID_OR_GLB_RE_match (stripped line)) = none
    rw [hnonempty]
    simp only [Bool.false_eq_true, if_false]
    cases hm : ID_OR_GLB_RE_match (stripped line) with
    | none => rfl
    | some i =>
      exfalso
      obtain ⟨hine, hiall, hcases⟩ := ID_OR_GLB_RE_match_some hm
      rw [hstrip] at hcases
      cases hcases with
      | inl heq =>
        have hil : i.toList = h.toList ++ (Char.ofNat 46 :: rest) := by
          rw [← heq, show (h ++ e).toList = h.toList ++ e.toList from rfl, hel]
        have hmem : Char.ofNat 46 ∈ i.toList := by
          rw [hil]
          exact List.mem_append_right _ (List.mem_cons_self _ _)
        rw [List.all_eq_true] at hiall
        exact absurd (hiall _ hmem) (by decide)
      | inr heq =>
        have hsplit : h.toList ++ (Char.ofNat 46 :: rest)
            = i.toList ++ (Char.ofNat 46 :: ('g' :: 'l' :: 'b' :: [])) := by
          have h1 : (h ++ e).toList = (i ++ ".glb").toList := by rw [heq]
          have h2 : h.toList ++ e.toList
              = i.toList ++ (".glb" : String).toList := h1
          rw [hel] at h2
          have h3 : (".glb" : String).toList
              = Char.ofNat 46 :: ('g' :: 'l' :: 'b' :: []) := by decide
          rw [h3] at h2
          exact h2
        have hout := dotfree_split (Char.ofNat 46) h.toList i.toList rest
          ('g' :: 'l' :: 'b' :: []) (all_hex_dotfree hhex) (all_hex_dotfree hiall) hsplit
        apply hne
        apply String.ext
        show e.toList = (".glb" : String).toList
        rw [hel, hout.2]
        decide
  · intro line hnone hblank
    simp [parse_input, hnone, hblank]
  · intro line i h
    unfold parse_id at h
    by_cases hempty : (stripped line).isEmpty = true
    · rw [if_pos hempty] at h
      exact absurd h (by simp)
    · rw [if_neg hempty] at h
      exact ID_OR_GLB_RE_match_some h

/-- witness for C9 at the concrete line `"abc123.png"`. -/
theorem parse_id_strips_only_glb_witness :
    parse_id "abc123.png" = none :=
  parse_id_strips_only_glb.1 "abc123.png" "abc123" ".png"
    (by decide) (by decide) (by decide) (by decide) (by decide)

/-! ## Filesystem lemmas -/

theorem FS.set_apply_self (fs : FS) (p : String) (c : List Nat) :
    FS.set fs p c p = some c := by
  simp [FS.set]

theorem FS.set_apply_ne (fs : FS) (p q : String) (c : List Nat) (h : q ≠ p) :
    FS.set fs p c q = fs q := by
  simp [FS.set, h]

theorem FS.remove_apply_self (fs : FS) (p : String) : FS.remove fs p p = none := by
  simp [FS.remove]

theorem FS.remove_apply_ne (fs : FS) (p q : String) (h : q ≠ p) :
    FS.remove fs p q = fs q := by
  simp [FS.remove, h]

theorem self_ne_append_part (s : String) : s ≠ s ++ ".part" := by
  intro h
  have h2 := congrArg String.length h
  rw [String.length_append] at h2
  have h3 : (".part" : String).length = 5 := rfl
  rw [h3] at h2
  omega

/-! ## Resource fetcher theorems -/

theorem download_file_present (net : String → NetResp) (fs : FS)
    (url out_path : String) (timeout : Nat)
    (hout : file_nonempty fs out_path = true) :
    download_file net fs url out_path timeout =
      { fs := fs, ok := true, reason := "exists", calls := 0 } := by
  unfold download_file
  rw [if_pos hout]

theorem pose_step_present (env : Env) (avatar_id avatar_dir : String)
    (bp : List (String × String)) (timeout : Nat) (acc : TaskOut) (pose : String)
    (hp : file_nonempty acc.fs (pose_png_path avatar_dir avatar_id pose) = true) :
    pose_step env avatar_id avatar_dir bp timeout acc pose =
      { fs := acc.fs, result := { acc.result with png_ok := acc.result.png_ok + 1 },
        netCalls := acc.netCalls,
        attempts := acc.attempts ++ [pose_png_path avatar_dir avatar_id pose] } := by
  simp only [pose_step]
  rw [download_file_present _ _ _ _ _ hp]
  simp

theorem foldl_pose_step_all_present (env : Env) (avatar_id avatar_dir : String)
    (bp : List (String × String)) (timeout : Nat) :
    ∀ (poses : List String) (acc : TaskOut),
      (∀ pose ∈ poses, file_nonempty acc.fs (pose_png_path avatar_dir avatar_id pose) = true) →
      poses.foldl (pose_step env avatar_id avatar_dir bp timeout) acc =
        { fs := acc.fs,
          result := { acc.result with png_ok := acc.result.png_ok + poses.length },
          netCalls := acc.netCalls,
          attempts := acc.attempts ++ poses.map (pose_png_path avatar_dir avatar_id) } := by
  intro poses
  induction poses with
  | nil =>
    intro acc _
    simp
  | cons pose rest ih =>
    intro acc hall
    rw [List.foldl_cons,
      pose_step_present env avatar_id avatar_dir bp timeout acc pose
        (hall pose (List.mem_cons_self pose rest)),
      ih { fs := acc.fs, result := { acc.result with png_ok := acc.result.png_ok + 1 },
           netCalls := acc.netCalls,
           attempts := acc.attempts ++ [pose_png_path avatar_dir avatar_id pose] }
        (fun q hq => hall q (List.mem_cons_of_mem pose hq))]
    simp [List.append_assoc]
    omega

/-- C1: a fetch whose destination exists non-empty returns `exists`
immediately with zero network calls and the filesystem untouched; and when
all five output files of an avatar pre-exist non-empty, re-running the avatar
task issues zero network calls and returns the filesystem unchanged. -/
theorem skip_if_present_idempotent
    (env : Env) (fs : FS) (url out_path avatar_id out_root : String)
    (base_params : List (String × String)) (timeout : Nat)
    (hout : file_nonempty fs out_path = true)
    (hmk : env.mkdirExc (pathJoin out_root avatar_id) = none)
    (hglb : file_nonempty fs
      (pathJoin (pathJoin out_root avatar_id) (avatar_id ++ ".glb")) = true)
    (hpng : ∀ pose ∈ POSES,
      file_nonempty fs (pose_png_path (pathJoin out_root avatar_id) avatar_id pose) = true) :
    download_file env.net fs url out_path timeout =
      { fs := fs, ok := true, reason := "exists", calls := 0 } ∧
    process_avatar env fs avatar_id out_root base_params timeout =
      Except.ok
        { fs := fs,
          result := { avatar := avatar_id, glb := some "exists", png_ok := 4, png_fail := 0 },
          netCalls := 0,
          attempts := POSES.map (pose_png_path (pathJoin out_root avatar_id) avatar_id) } := by
  refine ⟨download_file_present _ _ _ _ _ hout, ?_⟩
  unfold process_avatar
  simp only [hmk,
    download_file_present env.net fs (RPM_3D_BASE ++ avatar_id ++ ".glb")
      (pathJoin (pathJoin out_root avatar_id) (avatar_id ++ ".glb")) timeout hglb]
  rw [foldl_pose_step_all_present env avatar_id (pathJoin out_root avatar_id)
    base_params timeout POSES _ hpng]
  simp [POSES]

/-- witness for C1: avatar `ab` under root `o`, all five files pre-existing. -/
theorem skip_if_present_idempotent_witness :
    download_file envAllOk.net fsPre "u"
        (pathJoin (pathJoin "o" "ab") ("ab" ++ ".glb")) 60 =
      { fs := fsPre, ok := true, reason := "exists", calls := 0 } ∧
    process_avatar envAllOk fsPre "ab" "o" [] 60 =
      Except.ok
        { fs := fsPre,
          result := { avatar := "ab", glb := some "exists", png_ok := 4, png_fail := 0 },
          netCalls := 0,
          attempts := POSES.map (pose_png_path (pathJoin "o" "ab") "ab") } :=
  skip_if_present_idempotent envAllOk fsPre "u"
    (pathJoin (pathJoin "o" "ab") ("ab" ++ ".glb")) "ab" "o" [] 60
    (by decide) rfl (by decide) (by decide)

/-- C2: on every failure of the fetcher the destination is neither created
nor modified and no temporary file survives, the failure reason names the
non-200 status or the exception kind, and the destination is only ever
changed by installing the complete body of a 200 response. -/
theorem download_failure_safety (net : String → NetResp) (fs : FS)
    (url out_path : String) (timeout : Nat)
    (htmp : fs (out_path ++ ".part") = none) :
    FetchFailureSafe net fs url out_path timeout := by
  unfold FetchFailureSafe
  by_cases hout : file_nonempty fs out_path = true
  · rw [download_file_present _ _ _ _ _ hout]
    exact ⟨fun hc => by simp at hc, Or.inl rfl⟩
  · cases hnet : net url with
    | resp code body =>
      by_cases hcode : code = 200
      · subst hcode
        have hd : download_file net fs url out_path timeout =
            { fs := FS.set (FS.remove (FS.set fs (out_path ++ ".part") body)
                (out_path ++ ".part")) out_path body,
              ok := true, reason := "downloaded", calls := 1 } := by
          unfold download_file
          rw [if_neg hout, hnet]
          simp
        rw [hd]
        refine ⟨fun hc => by simp at hc, Or.inr ⟨rfl, rfl, body, rfl, ?_⟩⟩
        exact FS.set_apply_self _ _ _
      · have hd : download_file net fs url out_path timeout =
            { fs := fs, ok := false, reason := "http_" ++ toString code, calls := 1 } := by
          unfold download_file
          rw [if_neg hout, hnet]
          simp [hcode]
        rw [hd]
        exact ⟨fun _ => ⟨rfl, htmp, Or.inl ⟨code, body, rfl, hcode, rfl⟩⟩, Or.inl rfl⟩
    | exc kind wrote =>
      cases wrote with
      | none =>
        have hd : download_file net fs url out_path timeout =
            { fs := fs, ok := false, reason := "error_" ++ kind, calls := 1 } := by
          unfold download_file
          rw [if_neg hout, hnet]
          simp [htmp]
        rw [hd]
        exact ⟨fun _ => ⟨rfl, htmp, Or.inr ⟨kind, none, rfl, rfl⟩⟩, Or.inl rfl⟩
      | some w =>
        have hd : download_file net fs url out_path timeout =
            { fs := FS.remove (FS.set fs (out_path ++ ".part") w) (out_path ++ ".part"),
              ok := false, reason := "error_" ++ kind, calls := 1 } := by
          unfold download_file
          rw [if_neg hout, hnet]
          simp [FS.set_apply_self]
        rw [hd]
        have hdst : FS.remove (FS.set fs (out_path ++ ".part") w)
            (out_path ++ ".part") out_path = fs out_path := by
          rw [FS.remove_apply_ne _ _ _ (self_ne_append_part out_path),
            FS.set_apply_ne _ _ _ _ (self_ne_append_part out_path)]
        exact ⟨fun _ => ⟨hdst, FS.remove_apply_self _ _,
          Or.inr ⟨kind, some w, rfl, rfl⟩⟩, Or.inl hdst⟩

/-- witness for C2 at a concrete 404 fetch into an empty filesystem. -/
theorem download_failure_safety_witness :
    fsEmpty ("o/ab.glb" ++ ".part") = none ∧
    FetchFailureSafe envHttp404.net fsEmpty "u" "o/ab.glb" 60 :=
  ⟨rfl, download_failure_safety envHttp404.net fsEmpty "u" "o/ab.glb" 60 rfl⟩

/-! ## Avatar task theorems -/

theorem str_startsWith_FAILED (s : String) :
    str_startsWith ("FAILED (" ++ s ++ ")") "FAILED" = true := by
  unfold str_startsWith
  apply List.isPrefixOf_iff_prefix.mpr
  refine ⟨(" (" : String).toList ++ s.toList ++ (")" : String).toList, ?_⟩
  have h1 : (("FAILED (" ++ s ++ ")") : String).toList
      = (("FAILED (" : String).toList ++ s.toList) ++ (")" : String).toList := rfl
  rw [h1]
  have h2 : ("FAILED" : String).toList ++ (" (" : String).toList
      = ("FAILED (" : String).toList := by decide
  rw [← h2]
  simp [List.append_assoc]

/-- C3: when the model fetch fails the avatar task returns at once with only
the model failure recorded — image counters both zero and no image fetch
attempted. -/
theorem model_failure_short_circuits (env : Env) (fs : FS)
    (avatar_id out_root : String) (bp : List (String × String)) (timeout : Nat)
    (hmk : env.mkdirExc (pathJoin out_root avatar_id) = none)
    (hfail : (download_file env.net fs (RPM_3D_BASE ++ avatar_id ++ ".glb")
        (pathJoin (pathJoin out_root avatar_id) (avatar_id ++ ".glb")) timeout).ok = false) :
    ∃ t, process_avatar env fs avatar_id out_root bp timeout = Except.ok t ∧
      t.result.png_ok = 0 ∧ t.result.png_fail = 0 ∧ t.attempts = [] ∧
      t.result.glb = some ("FAILED (" ++ (download_file env.net fs
        (RPM_3D_BASE ++ avatar_id ++ ".glb")
        (pathJoin (pathJoin out_root avatar_id) (avatar_id ++ ".glb")) timeout).reason ++ ")") ∧
      glbFailed t.result = true := by
  unfold process_avatar
  simp only [hmk, hfail, Bool.false_eq_true, if_false]
  exact ⟨_, rfl, rfl, rfl, rfl, rfl, str_startsWith_FAILED _⟩

/-- witness for C3: a 404 model response for avatar `ab`. -/
theorem model_failure_short_circuits_witness :
    ∃ t, process_avatar envHttp404 fsEmpty "ab" "o" [] 60 = Except.ok t ∧
      t.result.png_ok = 0 ∧ t.result.png_fail = 0 ∧ t.attempts = [] ∧
      t.result.glb = some ("FAILED (" ++ (download_file envHttp404.net fsEmpty
        (RPM_3D_BASE ++ "ab" ++ ".glb")
        (pathJoin (pathJoin "o" "ab") ("ab" ++ ".glb")) 60).reason ++ ")") ∧
      glbFailed t.result = true :=
  model_failure_short_circuits envHttp404 fsEmpty "ab" "o" [] 60 rfl rfl

theorem pose_step_shape (env : Env) (avatar_id avatar_dir : String)
    (bp : List (String × String)) (timeout : Nat) (acc : TaskOut) (pose : String) :
    (pose_step env avatar_id avatar_dir bp timeout acc pose).attempts
        = acc.attempts ++ [pose_png_path avatar_dir avatar_id pose] ∧
    (pose_step env avatar_id avatar_dir bp timeout acc pose).result.png_ok
        + (pose_step env avatar_id avatar_dir bp timeout acc pose).result.png_fail
        = acc.result.png_ok + acc.result.png_fail + 1 ∧
    (pose_step env avatar_id avatar_dir bp timeout acc pose).result.glb
        = acc.result.glb ∧
    (pose_step env avatar_id avatar_dir bp timeout acc pose).result.avatar
        = acc.result.avatar := by
  simp only [pose_step]
  split <;> simp <;> omega

theorem foldl_pose_step_counts (env : Env) (avatar_id avatar_dir : String)
    (bp : List (String × String)) (timeout : Nat) :
    ∀ (poses : List String) (acc : TaskOut),
      (poses.foldl (pose_step env avatar_id avatar_dir bp timeout) acc).attempts
          = acc.attempts ++ poses.map (pose_png_path avatar_dir avatar_id) ∧
      (poses.foldl (pose_step env avatar_id avatar_dir bp timeout) acc).result.png_ok
          + (poses.foldl (pose_step env avatar_id avatar_dir bp timeout) acc).result.png_fail
          = acc.result.png_ok + acc.result.png_fail + poses.length ∧
      (poses.foldl (pose_step env avatar_id avatar_dir bp timeout) acc).result.glb
          = acc.result.glb ∧
      (poses.foldl (pose_step env avatar_id avatar_dir bp timeout) acc).result.avatar
          = acc.result.avatar := by
  intro poses
  induction poses with
  | nil =>
    intro acc
    simp
  | cons pose rest ih =>
    intro acc
    rw [List.foldl_cons]
    obtain ⟨h1, h2, h3, h4⟩ := ih (pose_step env avatar_id avatar_dir bp timeout acc pose)
    obtain ⟨g1, g2, g3, g4⟩ := pose_step_shape env avatar_id avatar_dir bp timeout acc pose
    refine ⟨?_, ?_, ?_, ?_⟩
    · rw [h1, g1]
      simp [List.append_assoc]
    · rw [h2, g2, List.length_cons]
      omega
    · rw [h3, g3]
    · rw [h4, g4]

/-- C4: when the model fetch succeeds the avatar task attempts exactly the
four pose images, one per pose in order, whatever each image fetch returns,
and the image success and failure counts sum to 4. -/
theorem model_success_four_attempts (env : Env) (fs : FS)
    (avatar_id out_root : String) (bp : List (String × String)) (timeout : Nat)
    (hmk : env.mkdirExc (pathJoin out_root avatar_id) = none)
    (hok : (download_file env.net fs (RPM_3D_BASE ++ avatar_id ++ ".glb")
        (pathJoin (pathJoin out_root avatar_id) (avatar_id ++ ".glb")) timeout).ok = true) :
    ∃ t, process_avatar env fs avatar_id out_root bp timeout = Except.ok t ∧
      t.attempts = POSES.map (pose_png_path (pathJoin out_root avatar_id) avatar_id) ∧
      t.attempts.length = 4 ∧
      t.result.png_ok + t.result.png_fail = 4 ∧
      t.result.glb = some (download_file env.net fs (RPM_3D_BASE ++ avatar_id ++ ".glb")
        (pathJoin (pathJoin out_root avatar_id) (avatar_id ++ ".glb")) timeout).reason := by
  unfold process_avatar
  simp only [hmk, hok, if_true]
  refine ⟨_, rfl, ?_, ?_, ?_, ?_⟩
  · rw [(foldl_pose_step_counts env avatar_id (pathJoin out_root avatar_id)
      bp timeout POSES _).1]
    simp
  · rw [(foldl_pose_step_counts env avatar_id (pathJoin out_root avatar_id)
      bp timeout POSES _).1]
    simp [POSES]
  · rw [(foldl_pose_step_counts env avatar_id (pathJoin out_root avatar_id)
      bp timeout POSES _).2.1]
    simp [POSES]
  · rw [(foldl_pose_step_counts env avatar_id (pathJoin out_root avatar_id)
      bp timeout POSES _).2.2.1]

/-- witness for C4: all requests return 200 for avatar `ab`. -/
theorem model_success_four_attempts_witness :
    ∃ t, process_avatar envAllOk fsEmpty "ab" "o" [] 60 = Except.ok t ∧
      t.attempts = POSES.map (pose_png_path (pathJoin "o" "ab") "ab") ∧
      t.attempts.length = 4 ∧
      t.result.png_ok + t.result.png_fail = 4 ∧
      t.result.glb = some (download_file envAllOk.net fsEmpty
        (RPM_3D_BASE ++ "ab" ++ ".glb")
        (pathJoin (pathJoin "o" "ab") ("ab" ++ ".glb")) 60).reason :=
  model_success_four_attempts envAllOk fsEmpty "ab" "o" [] 60 rfl rfl

/-- C6 (amended): the avatar task cannot raise once the per-avatar directory
creation has succeeded — every fetch failure is captured in the returned
record; a directory-creation error, however, propagates (see the
counterexample). -/
theorem process_avatar_total_when_mkdir_ok (env : Env) (fs : FS)
    (avatar_id out_root : String) (bp : List (String × String)) (timeout : Nat)
    (hmk : env.mkdirExc (pathJoin out_root avatar_id) = none) :
    ∃ t, process_avatar env fs avatar_id out_root bp timeout = Except.ok t := by
  unfold process_avatar
  simp only [hmk]
  split
  · exact ⟨_, rfl⟩
  · exact ⟨_, rfl⟩

/-- witness for C6 (amended) with a directory creation that succeeds. -/
theorem process_avatar_total_when_mkdir_ok_witness :
    ∃ t, process_avatar envAllOk fsEmpty "ab" "o" [] 60 = Except.ok t :=
  process_avatar_total_when_mkdir_ok envAllOk fsEmpty "ab" "o" [] 60 rfl

/-- counterexample to C6 as stated: a `PermissionError` from `os.makedirs`
is not caught by `process_avatar` and escapes the avatar task. -/
theorem process_avatar_raises_on_mkdir_error :
    process_avatar envMkdirFail fsEmpty "ab" "o" [] 60 = Except.error "PermissionError" ∧
    ¬ ∀ (env : Env) (fs : FS) (avatar_id out_root : String)
        (bp : List (String × String)) (timeout : Nat),
        ∃ t, process_avatar env fs avatar_id out_root bp timeout = Except.ok t := by
  refine ⟨rfl, ?_⟩
  intro hall
  obtain ⟨t, ht⟩ := hall envMkdirFail fsEmpty "ab" "o" [] 60
  rw [show process_avatar envMkdirFail fsEmpty "ab" "o" [] 60
      = Except.error "PermissionError" from rfl] at ht
  exact Except.noConfusion ht

/-! ## Aggregation theorems -/

theorem tally_explicit (s : Summary) (r : AvatarResult) :
    tally s r = { ok_glb := s.ok_glb + (if glbFailed r then 0 else 1),
                  fail_glb := s.fail_glb + (if glbFailed r then 1 else 0),
                  png_ok := s.png_ok + r.png_ok,
                  png_fail := s.png_fail + r.png_fail } := by
  unfold tally
  by_cases hg : glbFailed r = true <;> simp [hg]

theorem tally_comm (s : Summary) (a b : AvatarResult) :
    tally (tally s a) b = tally (tally s b) a := by
  by_cases ha : glbFailed a = true <;> by_cases hb : glbFailed b = true <;>
    simp [tally_explicit, ha, hb, Summary.mk.injEq] <;> omega

theorem foldl_tally_perm {l1 l2 : List AvatarResult} (h : l1.Perm l2) :
    ∀ s : Summary, l1.foldl tally s = l2.foldl tally s := by
  induction h with
  | nil => intro s; rfl
  | cons x _ ih =>
    intro s
    rw [List.foldl_cons, List.foldl_cons, ih]
  | swap x y l =>
    intro s
    rw [List.foldl_cons, List.foldl_cons, List.foldl_cons, List.foldl_cons,
      tally_comm s y x]
  | trans _ _ ih1 ih2 =>
    intro s
    rw [ih1, ih2]

/-- C10: the summary counters, and with them the exit status, are invariant
under the completion order of the avatar results: permuting the result
stream never changes what the aggregator reports. -/
theorem aggregate_perm_invariant (rs1 rs2 : List AvatarResult) (h : rs1.Perm rs2) :
    aggregate rs1 = aggregate rs2 ∧
    exit_of (aggregate rs1) = exit_of (aggregate rs2) := by
  have hagg : aggregate rs1 = aggregate rs2 := foldl_tally_perm h ⟨0, 0, 0, 0⟩
  exact ⟨hagg, by rw [hagg]⟩

/-- witness for C10 on a two-element result set swapped. -/
theorem aggregate_perm_invariant_witness :
    aggregate [resOkFx, resFailFx] = aggregate [resFailFx, resOkFx] ∧
    exit_of (aggregate [resOkFx, resFailFx]) = exit_of (aggregate [resFailFx, resOkFx]) :=
  aggregate_perm_invariant [resOkFx, resFailFx] [resFailFx, resOkFx]
    (List.Perm.swap resFailFx resOkFx [])

theorem foldl_tally_fail_glb (rs : List AvatarResult) :
    ∀ s : Summary, (rs.foldl tally s).fail_glb = s.fail_glb + rs.countP glbFailed := by
  induction rs with
  | nil =>
    intro s
    simp
  | cons r rest ih =>
    intro s
    rw [List.foldl_cons, ih, List.countP_cons]
    by_cases hg : glbFailed r = true <;> (simp [tally_explicit, hg]; try omega)

theorem aggregate_fail_glb (rs : List AvatarResult) :
    (aggregate rs).fail_glb = rs.countP glbFailed := by
  unfold aggregate
  rw [foldl_tally_fail_glb]
  simp

/-- C5: the exit code is 1 iff the parsed identifier list is empty (and then
nothing is fetched), 2 iff some result records a model failure, and 0
otherwise; image failures alone leave the exit code at 0. -/
theorem exit_code_law (env : Env) (fs : FS) (lines : List String)
    (output_dir : String) (size : Int) (camera background : String)
    (timeout : Nat) (m : MainOut)
    (h : main_run env fs lines output_dir size camera background timeout = Except.ok m) :
    (m.code = 1 ↔ (parse_input lines).1 = []) ∧
    ((parse_input lines).1 = [] → m.netCalls = 0 ∧ m.results = []) ∧
    (m.code = 2 ↔ ∃ r ∈ m.results, glbFailed r = true) ∧
    (m.code = 0 ↔ (parse_input lines).1 ≠ [] ∧ m.summary.fail_glb = 0) ∧
    (m.code = 0 ∨ m.code = 1 ∨ m.code = 2) := by
  unfold main_run at h
  cases hmk : env.mkdirExc output_dir with
  | some k =>
    rw [hmk] at h
    exact Except.noConfusion h
  | none =>
    rw [hmk] at h
    by_cases hids : ((parse_input lines).1).isEmpty = true
    · rw [if_pos hids] at h
      injection h with h1
      subst h1
      have hnil : (parse_input lines).1 = [] := List.isEmpty_iff.mp hids
      refine ⟨?_, ?_, ?_, ?_, ?_⟩
      · simp [hnil]
      · intro _
        exact ⟨rfl, rfl⟩
      · simp
      · simp [hnil]
      · right; left; rfl
    · rw [if_neg hids] at h
      have hne : (parse_input lines).1 ≠ [] := by
        intro hc
        rw [hc] at hids
        exact hids rfl
      cases hrt : run_tasks env fs (parse_input lines).1 output_dir
          (build_base_params size camera background) timeout with
      | error e =>
        rw [hrt] at h
        exact Except.noConfusion h
      | ok triple =>
        obtain ⟨fs2, rs, n⟩ := triple
        rw [hrt] at h
        injection h with h1
        subst h1
        have hagg := aggregate_fail_glb rs
        by_cases hfg : (aggregate rs).fail_glb = 0
        · have hnoex : ¬ ∃ r ∈ rs, glbFailed r = true := by
            intro hex
            have := List.countP_pos_iff.mpr hex
            omega
          refine ⟨?_, ?_, ?_, ?_, ?_⟩
          · exact iff_of_false (by simp [exit_of, hfg]) hne
          · intro hc
            exact absurd hc hne
          · exact iff_of_false (by simp [exit_of, hfg]) hnoex
          · exact iff_of_true (by simp [exit_of, hfg]) ⟨hne, hfg⟩
          · exact Or.inl (by simp [exit_of, hfg])
        · have hex : ∃ r ∈ rs, glbFailed r = true := by
            apply List.countP_pos_iff.mp
            omega
          refine ⟨?_, ?_, ?_, ?_, ?_⟩
          · exact iff_of_false (by simp [exit_of, hfg]) hne
          · intro hc
            exact absurd hc hne
          · exact iff_of_true (by simp [exit_of, hfg]) hex
          · exact iff_of_false (by simp [exit_of, hfg]) (fun hc => hfg hc.2)
          · exact Or.inr (Or.inr (by simp [exit_of, hfg]))

/-- witness for C5 on an empty input file. -/
theorem exit_code_law_witness :
    (mainOutEmptyRun.code = 1 ↔ (parse_input ([] : List String)).1 = []) ∧
    ((parse_input ([] : List String)).1 = [] →
      mainOutEmptyRun.netCalls = 0 ∧ mainOutEmptyRun.results = []) ∧
    (mainOutEmptyRun.code = 2 ↔ ∃ r ∈ mainOutEmptyRun.results, glbFailed r = true) ∧
    (mainOutEmptyRun.code = 0 ↔ (parse_input ([] : List String)).1 ≠ [] ∧
      mainOutEmptyRun.summary.fail_glb = 0) ∧
    (mainOutEmptyRun.code = 0 ∨ mainOutEmptyRun.code = 1 ∨ mainOutEmptyRun.code = 2) :=
  exit_code_law envAllOk fsEmpty [] "o" 1024 "portrait" "0,0,0" 60 mainOutEmptyRun rfl

end RpmAvatarDownloader
